import Mathlib

/-!
Shallow embedding of the MCP connector/transport layer of this repository:
`src/mcp/connector.py` (class `MCPConnector`) and the `_send_mcp_request` /
`_ensure_server_started` layer shared verbatim by `src/agent_tools/excel_mcp.py`
and `src/agent_tools/slack_mcp.py` (the two files differ only in the service
name, sleep durations and message wording, none of which affect the modelled
behaviour).

Modelling conventions:
* JSON values are the inductive `Json`; Python's `json.loads` is environmental,
  so each stdout line of a child process is a `RawLine` carrying its text
  (post-`strip()`) together with its parse result (`parsed = none` models a
  `json.JSONDecodeError`).
* A child process is a `ProcState`: `exitCode = none` means `poll()` returns
  `None` (alive); `some code` means the process has exited.  Its pending stdout
  is the list of lines `readline()` will yield; an exhausted list models
  end-of-stream, where `readline()` returns the empty string.  Blocking reads
  are not modelled (fixed `time.sleep` settle delays are no-ops).
* Writing to the stdin of an exited child raises `BrokenPipeError` on flush;
  this is modelled by the dead-process branches.  The write attempt itself is
  still recorded as a trace event.
* Python dicts (`self.servers`, `self.active_processes`, JSON objects) are
  association lists with first-match lookup; `d[k] = v` on an existing key is
  `updFirst`, on a fresh key an append, and `del d[k]` is `dictErase`.
* `terminate`/`kill`/`wait` in `stop_server` always confirm death in this
  model (OS-level signalling failures are outside the embedding), matching the
  code path in which the `except` clause never fires.
-/

namespace MCPModel

/-- JSON values, as produced by Python's `json` module. -/
inductive Json where
  | null : Json
  | bool (b : Bool) : Json
  | num (n : Int) : Json
  | str (s : String) : Json
  | arr (elems : List Json) : Json
  | obj (fields : List (String × Json)) : Json

/-- First-match lookup in an association list (Python dict `d[k]` / `k in d`). -/
def alookup {α : Type} (k : String) : List (String × α) → Option α
  | [] => none
  | q :: rest => if q.1 = k then some q.2 else alookup k rest

/-- Replace the value at the first occurrence of key `k` (Python `d[k] = v`
on a key already present). -/
def updFirst {α : Type} (k : String) (v : α) : List (String × α) → List (String × α)
  | [] => []
  | q :: rest => if q.1 = k then (k, v) :: rest else q :: updFirst k v rest

/-- Remove every binding of key `k` (Python `del d[k]`; dict keys are unique,
so on reachable states this removes exactly one binding). -/
def dictErase {α : Type} (k : String) (l : List (String × α)) : List (String × α) :=
  l.filter (fun q => q.1 != k)

/-- Python `d[k] = v`: replace if the key is present, append otherwise. -/
def dictInsert {α : Type} (k : String) (v : α) (l : List (String × α)) : List (String × α) :=
  match alookup k l with
  | some _ => updFirst k v l
  | none => l ++ [(k, v)]

/-- Field lookup on a JSON object (`j["k"]` / `"k" in j`); `none` on non-objects. -/
def Json.getField : Json → String → Option Json
  | .obj fs, k => alookup k fs
  | _, _ => none

/-- Python `j.get(k, d)` on a JSON object. -/
def Json.getD (j : Json) (k : String) (d : Json) : Json :=
  match j.getField k with
  | some v => v
  | none => d

/-- One line read from a child's stdout: the text after `.strip()`, together
with the result of `json.loads` on it (environmental: `none` models a
`json.JSONDecodeError`). -/
structure RawLine where
  text : String
  parsed : Option Json

/-- State of one spawned child process (`subprocess.Popen`): `exitCode` is what
`poll()` reports (`none` = still running), `stdout` the pending lines that
successive `readline()` calls will yield (empty = end-of-stream, where
`readline()` returns `""`). -/
structure ProcState where
  exitCode : Option Int
  stdout : List RawLine

/-- `MCPServer` dataclass from `src/mcp/connector.py`.  `command`/`args`/`env`
hold whatever JSON the config file supplied (Python does not validate types). -/
structure MCPServer where
  name : String
  command : Json
  args : Json
  env : Json

/-- State of an `MCPConnector`: `servers` is `self.servers`, `active` is
`self.active_processes`. -/
structure Connector where
  servers : List (String × MCPServer)
  active : List (String × ProcState)

/-- One observable I/O action on a child's pipes: a (possibly failing) write of
one JSON line to its stdin, or a `readline()` from its stdout carrying the
stripped text read (`none` = no line available). -/
inductive TraceEvent where
  | writeLine (svc : String) (msg : Json)
  | readLine (svc : String) (line : Option String)

/-- The `initialize` request literal from `MCPConnector._initialize_mcp_connection`. -/
def initRequest : Json :=
  .obj [("jsonrpc", .str "2.0"), ("id", .num 1), ("method", .str "initialize"),
        ("params", .obj
          [("protocolVersion", .str "2024-11-05"),
           ("capabilities", .obj [("tools", .obj [])]),
           ("clientInfo", .obj [("name", .str "excel-mcp-connector"),
                                ("version", .str "1.0.0")])])]

/-- The `notifications/initialized` notification literal from
`MCPConnector._initialize_mcp_connection`. -/
def initializedNotification : Json :=
  .obj [("jsonrpc", .str "2.0"), ("method", .str "notifications/initialized")]

/-- `MCPConnector._initialize_mcp_connection`: write the `initialize` request,
read one response line, check it parses and carries `"result"` — but only when
a non-empty line was read (`if response_line:`) — then send the `initialized`
notification.  Returns the success flag, the connector with the child's stdout
advanced, and the I/O trace.  A dead child makes the first `stdin.write`/`flush`
raise `BrokenPipeError`, caught by the `except` clause (returns `False`). -/
def initializeMcpConnection (c : Connector) (name : String) :
    Bool × Connector × List TraceEvent :=
  match alookup name c.active with
  | none => (false, c, [])
  | some p =>
    match p.exitCode with
    | some _ => (false, c, [.writeLine name initRequest])
    | none =>
      match p.stdout with
      | [] =>
        (true, c,
         [.writeLine name initRequest, .readLine name none,
          .writeLine name initializedNotification])
      | l :: rest =>
        if l.text = "" then
          (true, { c with active := updFirst name { p with stdout := rest } c.active },
           [.writeLine name initRequest, .readLine name (some l.text),
            .writeLine name initializedNotification])
        else
          match l.parsed with
          | none =>
            (false, { c with active := updFirst name { p with stdout := rest } c.active },
             [.writeLine name initRequest, .readLine name (some l.text)])
          | some j =>
            match j.getField "result" with
            | some _ =>
              (true, { c with active := updFirst name { p with stdout := rest } c.active },
               [.writeLine name initRequest, .readLine name (some l.text),
                .writeLine name initializedNotification])
            | none =>
              (false, { c with active := updFirst name { p with stdout := rest } c.active },
               [.writeLine name initRequest, .readLine name (some l.text)])

/-- `MCPConnector.stop_server`: a no-op success when the name is not
registered; otherwise terminate (grace period, then kill — always confirming
death in this model) and delete the handle.  Returns the success flag and the
new state. -/
def stopServer (c : Connector) (name : String) : Bool × Connector :=
  match alookup name c.active with
  | none => (true, c)
  | some _ => (true, { c with active := dictErase name c.active })

/-- `MCPConnector.start_server`: fail if the name is not configured; no-op
success if a handle is already registered (no liveness poll); otherwise spawn
(`sp = none` models `Popen` raising, the `except` path), register the handle,
run the handshake, and on handshake failure stop the server and fail. -/
def startServer (c : Connector) (name : String) (sp : Option ProcState) :
    Bool × Connector × List TraceEvent :=
  match alookup name c.servers with
  | none => (false, c, [])
  | some _ =>
    match alookup name c.active with
    | some _ => (true, c, [])
    | none =>
      match sp with
      | none => (false, c, [])
      | some p =>
        match initializeMcpConnection { c with active := c.active ++ [(name, p)] } name with
        | (true, c2, tr) => (true, c2, tr)
        | (false, c2, tr) => (false, (stopServer c2 name).2, tr)

/-- `MCPConnector.get_server_status`: `"not_configured"` for unknown names,
`"stopped"` for unregistered ones; otherwise poll the handle — alive yields
`"running"`, exited yields `"stopped"` after deleting the stale handle. -/
def getServerStatus (c : Connector) (name : String) : String × Connector :=
  match alookup name c.servers with
  | none => ("not_configured", c)
  | some _ =>
    match alookup name c.active with
    | none => ("stopped", c)
    | some p =>
      match p.exitCode with
      | none => ("running", c)
      | some _ => ("stopped", { c with active := dictErase name c.active })

/-- The JSON-RPC request literal built by `_send_mcp_request` (identical in
`excel_mcp.py` and `slack_mcp.py`): fixed id `1`, given method and params. -/
def rpcRequest (method : String) (params : Json) : Json :=
  .obj [("jsonrpc", .str "2.0"), ("id", .num 1), ("method", .str method),
        ("params", params)]

/-- State of an `ExcelMCPTool`/`SlackMCPTool`: `self.mcp_connector` and
`self._server_started`. -/
structure McpTool where
  connector : Option Connector
  serverStarted : Bool

/-- Environmental inputs of one `_send_mcp_request` call: the connector that
`MCPConnector()` would construct (`none` = its constructor raised, e.g. a
missing config file) and the process a spawn of the service would yield
(`none` = `Popen` raised). -/
structure SpawnEnv where
  newConnector : Option Connector
  spawn : Option ProcState

/-- `_ensure_server_started` (identical in `excel_mcp.py` and `slack_mcp.py`,
modulo the service name): if not yet started, construct a fresh `MCPConnector`
and `start_server` the service; record `_server_started` only on success.  Any
exception from the constructor is caught and reported as failure. -/
def ensureServerStarted (t : McpTool) (svc : String) (env : SpawnEnv) :
    Bool × McpTool × List TraceEvent :=
  if t.serverStarted then (true, t, [])
  else
    match env.newConnector with
    | none => (false, t, [])
    | some c =>
      match startServer c svc env.spawn with
      | (true, c', tr) => (true, ⟨some c', true⟩, tr)
      | (false, c', tr) => (false, ⟨some c', false⟩, tr)

/-- Outcome of `_send_mcp_request`, one constructor per distinct return shape
of the Python code:
* `startFailed` ↦ `{"error": "Failed to start ... MCP server"}`;
* `serverNotRunning` ↦ `{"error": "... server not running"}` (service absent
  from `active_processes`);
* `commError` ↦ `{"error": "MCP communication error: ..."}` (an exception such
  as `BrokenPipeError` inside the `try` block);
* `noResponse` ↦ `{"error": "No response from MCP server"}`;
* `invalidResponse raw` ↦ `{"error": "Invalid JSON response: <raw>"}`;
* `response j` ↦ the parsed JSON-RPC response returned verbatim (carrying the
  remote `"error"` payload, or the `"result"` payload, untouched). -/
inductive CallResult where
  | startFailed
  | serverNotRunning
  | commError
  | noResponse
  | invalidResponse (raw : String)
  | response (j : Json)

/-- `_send_mcp_request` (identical logic in `excel_mcp.py` and `slack_mcp.py`):
auto-start the server, check the service is registered, write the JSON-RPC
request to the child's stdin (a dead child raises `BrokenPipeError`, caught as
a communication error), then read and classify one response line.  Returns the
outcome, the new tool state, and the I/O trace. -/
def sendMcpRequest (t : McpTool) (svc : String) (env : SpawnEnv)
    (method : String) (params : Json) :
    CallResult × McpTool × List TraceEvent :=
  match ensureServerStarted t svc env with
  | (false, t1, tr) => (.startFailed, t1, tr)
  | (true, t1, tr) =>
    match t1.connector with
    | none => (.commError, t1, tr)
    | some c =>
      match alookup svc c.active with
      | none => (.serverNotRunning, t1, tr)
      | some p =>
        match p.exitCode with
        | some _ => (.commError, t1, tr ++ [.writeLine svc (rpcRequest method params)])
        | none =>
          match p.stdout with
          | [] =>
            (.noResponse, t1,
             tr ++ [.writeLine svc (rpcRequest method params), .readLine svc none])
          | l :: rest =>
            if l.text = "" then
              (.noResponse,
               ⟨some { c with active := updFirst svc { p with stdout := rest } c.active },
                t1.serverStarted⟩,
               tr ++ [.writeLine svc (rpcRequest method params), .readLine svc (some l.text)])
            else
              match l.parsed with
              | none =>
                (.invalidResponse l.text,
                 ⟨some { c with active := updFirst svc { p with stdout := rest } c.active },
                  t1.serverStarted⟩,
                 tr ++ [.writeLine svc (rpcRequest method params), .readLine svc (some l.text)])
              | some j =>
                (.response j,
                 ⟨some { c with active := updFirst svc { p with stdout := rest } c.active },
                  t1.serverStarted⟩,
                 tr ++ [.writeLine svc (rpcRequest method params), .readLine svc (some l.text)])

/-- The three states the config file can be found in, as `load_config`
distinguishes them: missing (`FileNotFoundError`), unparsable
(`json.JSONDecodeError`), or parsed to a JSON value. -/
inductive ConfigSource where
  | missing
  | malformed
  | parsed (j : Json)

/-- How `load_config` can fail: the two errors it declares handlers for
(re-raised after logging), a `KeyError` from `server_config['command']`, and
an `AttributeError`/`TypeError` from using a non-dict where a dict is expected
(`config.get`, `.items()`, subscripting a non-dict entry) — the latter two
escape the declared handlers. -/
inductive LoadError where
  | configNotFound
  | configMalformed
  | keyError (key : String)
  | attrError

/-- The entry list `config.get('mcpServers', {}).items()` iterates over:
`none` models the `AttributeError` raised when `config` or its `mcpServers`
value is not a dict. -/
def serversEntries (j : Json) : Option (List (String × Json)) :=
  match j with
  | .obj fs =>
    match alookup "mcpServers" fs with
    | none => some []
    | some (.obj es) => some es
    | some _ => none
  | _ => none

/-- The body of `load_config`'s `for` loop: build an `MCPServer` per entry and
store it under its name.  An entry lacking `command` raises `KeyError`
(modelled as `keyError "command"`), leaving the servers accumulated so far in
place; a non-dict entry raises `TypeError` on subscripting (`attrError`). -/
def loadEntries : List (String × Json) → List (String × MCPServer) →
    Option LoadError × List (String × MCPServer)
  | [], acc => (none, acc)
  | (n, sc) :: rest, acc =>
    match sc with
    | .obj fs =>
      match alookup "command" fs with
      | none => (some (.keyError "command"), acc)
      | some cmd =>
        loadEntries rest
          (dictInsert n
            ⟨n, cmd, (Json.obj fs).getD "args" (.arr []), (Json.obj fs).getD "env" (.obj [])⟩
            acc)
    | _ => (some .attrError, acc)

/-- `MCPConnector.load_config`: the missing/malformed cases hit the declared
handlers; otherwise iterate over the `mcpServers` entries, mutating
`self.servers` as it goes (so a mid-loop exception leaves the earlier entries
registered).  Returns the escaping error, if any, and the connector state. -/
def loadConfig (src : ConfigSource) (c : Connector) : Option LoadError × Connector :=
  match src with
  | .missing => (some .configNotFound, c)
  | .malformed => (some .configMalformed, c)
  | .parsed j =>
    match serversEntries j with
    | none => (some .attrError, c)
    | some es =>
      match loadEntries es c.servers with
      | (e, servers') => (e, { c with servers := servers' })

/-! ### Association-list lemmas -/

theorem alookup_append_self {α : Type} (k : String) (v : α) (l : List (String × α))
    (h : alookup k l = none) : alookup k (l ++ [(k, v)]) = some v := by
  induction l with
  | nil => simp [alookup]
  | cons q rest ih =>
    by_cases hq : q.1 = k
    · simp [alookup, hq] at h
    · simp only [List.cons_append, alookup, if_neg hq] at h ⊢
      exact ih h

theorem updFirst_append_self {α : Type} (k : String) (v w : α) (l : List (String × α))
    (h : alookup k l = none) : updFirst k v (l ++ [(k, w)]) = l ++ [(k, v)] := by
  induction l with
  | nil => simp [updFirst]
  | cons q rest ih =>
    by_cases hq : q.1 = k
    · simp [alookup, hq] at h
    · simp only [alookup, if_neg hq] at h
      simp only [List.cons_append, updFirst, if_neg hq, List.append_eq, ih h]

theorem dictErase_not_found {α : Type} (k : String) (l : List (String × α))
    (h : alookup k l = none) : dictErase k l = l := by
  induction l with
  | nil => rfl
  | cons q rest ih =>
    by_cases hq : q.1 = k
    · simp [alookup, hq] at h
    · simp only [alookup, if_neg hq] at h
      simp only [dictErase] at ih ⊢
      simp [List.filter_cons, hq, ih h]

theorem dictErase_append_self {α : Type} (k : String) (v : α) (l : List (String × α))
    (h : alookup k l = none) : dictErase k (l ++ [(k, v)]) = l := by
  simp only [dictErase, List.filter_append]
  have h1 : List.filter (fun q => q.1 != k) [(k, v)] = [] := by simp
  rw [h1, List.append_nil]
  exact dictErase_not_found k l h

theorem alookup_dictErase_self {α : Type} (k : String) (l : List (String × α)) :
    alookup k (dictErase k l) = none := by
  induction l with
  | nil => rfl
  | cons q rest ih =>
    by_cases hq : q.1 = k
    · simpa [dictErase, List.filter_cons, hq] using ih
    · simp only [dictErase, List.filter_cons] at ih ⊢
      simpa [alookup, hq] using ih

theorem alookup_dictInsert_self {α : Type} (k : String) (v : α) (l : List (String × α)) :
    alookup k (dictInsert k v l) = some v := by
  unfold dictInsert
  cases hl : alookup k l with
  | none => exact alookup_append_self k v l hl
  | some w =>
    induction l with
    | nil => simp [alookup] at hl
    | cons q rest ih =>
      by_cases hq : q.1 = k
      · simp [updFirst, hq, alookup]
      · simp only [alookup, if_neg hq] at hl
        simp only [updFirst, if_neg hq, alookup, if_neg hq]
        exact ih hl

theorem alookup_dictInsert_isSome {α : Type} (k n : String) (v : α) (l : List (String × α))
    (h : (alookup k l).isSome) : (alookup k (dictInsert n v l)).isSome := by
  by_cases hkn : n = k
  · subst hkn
    simp [alookup_dictInsert_self]
  · unfold dictInsert
    cases hl : alookup n l with
    | none =>
      induction l with
      | nil => simp [alookup] at h
      | cons q rest ih =>
        by_cases hq : q.1 = k
        · simp [alookup, hq]
        · simp only [alookup, if_neg hq] at h
          simp only [List.cons_append, alookup, if_neg hq]
          by_cases hqn : q.1 = n
          · simp [alookup, hqn] at hl
          · simp only [alookup, if_neg hqn] at hl
            exact ih h hl
    | some w =>
      induction l with
      | nil => simp [alookup] at h
      | cons q rest ih =>
        by_cases hqn : q.1 = n
        · simp only [updFirst, if_pos hqn, alookup, if_neg hkn]
          simpa [alookup, hqn ▸ hkn] using h
        · simp only [alookup, if_neg hqn] at hl
          simp only [updFirst, if_neg hqn]
          by_cases hq : q.1 = k
          · simp [alookup, hq]
          · simp only [alookup, if_neg hq] at h ⊢
            exact ih h hl

/-! ### State-preservation lemmas for the connector operations -/

theorem initializeMcpConnection_servers (c : Connector) (name : String) :
    (initializeMcpConnection c name).2.1.servers = c.servers := by
  unfold initializeMcpConnection
  repeat' split
  all_goals rfl

theorem stopServer_servers (c : Connector) (name : String) :
    (stopServer c name).2.servers = c.servers := by
  unfold stopServer
  cases alookup name c.active <;> rfl

theorem startServer_servers (c : Connector) (name : String) (sp : Option ProcState) :
    (startServer c name sp).2.1.servers = c.servers := by
  unfold startServer
  cases alookup name c.servers with
  | none => rfl
  | some srv =>
    cases alookup name c.active with
    | some p => rfl
    | none =>
      cases sp with
      | none => rfl
      | some p =>
        have h1 := initializeMcpConnection_servers
          { c with active := c.active ++ [(name, p)] } name
        rcases hini : initializeMcpConnection { c with active := c.active ++ [(name, p)] } name
          with ⟨b, c2, tr⟩
        have h2 := stopServer_servers c2 name
        rw [hini] at h1
        simp only at h1
        cases b <;> simp [hini, h1, h2]

theorem stopServer_not_active (c : Connector) (name : String) :
    alookup name (stopServer c name).2.active = none := by
  unfold stopServer
  cases hl : alookup name c.active with
  | none => simpa using hl
  | some p => simpa using alookup_dictErase_self name c.active

theorem initializeMcpConnection_trace (c : Connector) (name : String) (p : ProcState)
    (h : alookup name c.active = some p) :
    ∃ tr, (initializeMcpConnection c name).2.2
      = TraceEvent.writeLine name initRequest :: tr := by
  simp only [initializeMcpConnection, h]
  repeat' split
  all_goals exact ⟨_, rfl⟩

/-- A `start_server` on a configured, unregistered name with a successful spawn
always attempts the handshake: its I/O trace opens with the `initialize`
request write (in particular it is not the empty trace of the
already-registered no-op path). -/
theorem startServer_fresh_trace (c : Connector) (name : String) (q : ProcState)
    (srv : MCPServer)
    (hcfg : alookup name c.servers = some srv) (hact : alookup name c.active = none) :
    ∃ tr, (startServer c name (some q)).2.2
      = TraceEvent.writeLine name initRequest :: tr := by
  obtain ⟨tr, htr⟩ := initializeMcpConnection_trace { c with active := c.active ++ [(name, q)] }
    name q (alookup_append_self name q c.active hact)
  rcases hini : initializeMcpConnection { c with active := c.active ++ [(name, q)] } name
    with ⟨b, c2, tr2⟩
  rw [hini] at htr
  simp only at htr
  refine ⟨tr, ?_⟩
  simp only [startServer, hcfg, hact, hini]
  cases b <;> simpa using htr

/-! ### Concrete fixtures for witnesses and counterexamples -/

/-- The sample Excel server configuration from `create_sample_excel_config`. -/
def excelServer : MCPServer :=
  ⟨"excel", .str "uvx", .arr [.str "excel-mcp-server", .str "stdio"], .obj []⟩

/-- A child process that has exited with code 1. -/
def deadProc : ProcState := ⟨some 1, []⟩

/-- A live child process that never produces a line on stdout. -/
def quietProc : ProcState := ⟨none, []⟩

/-- A connector knowing the `excel` service, with nothing started yet. -/
def demoConnector : Connector := ⟨[("excel", excelServer)], []⟩

/-- A connector whose registered `excel` child has already exited. -/
def deadRegistered : Connector := ⟨[("excel", excelServer)], [("excel", deadProc)]⟩

/-- An environment in which constructing a connector or spawning would fail;
used where the environment is irrelevant. -/
def envNone : SpawnEnv := ⟨none, none⟩

/-! ### Claims -/

/-- Claim C5 (confirmed): stop/terminate is idempotent.  For every connector
state and service name — including one whose registered process was already
dead — `stop_server` returns success, and calling it again immediately
afterwards is a no-op that again returns success. -/
theorem claim5_stop_idempotent (c : Connector) (name : String) :
    (stopServer c name).1 = true ∧
    stopServer (stopServer c name).2 name = (true, (stopServer c name).2) := by
  have h1 : (stopServer c name).1 = true := by
    unfold stopServer
    cases alookup name c.active <;> rfl
  have h2 := stopServer_not_active c name
  refine ⟨h1, ?_⟩
  generalize hgen : (stopServer c name).2 = c1 at h2 ⊢
  unfold stopServer
  rw [h2]

/-- Claim C6 (confirmed): for a configured service name, after a `start_server`
that returns success the status is `"running"` as long as the registered child
is still alive; and after a (always successful) `stop_server` the status is
`"stopped"`. -/
theorem claim6_status_after_start_stop (c : Connector) (name : String)
    (sp : Option ProcState) (srv : MCPServer)
    (hcfg : alookup name c.servers = some srv) :
    (∀ p, (startServer c name sp).1 = true →
        alookup name (startServer c name sp).2.1.active = some p →
        p.exitCode = none →
        (getServerStatus (startServer c name sp).2.1 name).1 = "running") ∧
    (stopServer c name).1 = true ∧
    (getServerStatus (stopServer c name).2 name).1 = "stopped" := by
  have hstop : (stopServer c name).1 = true := by
    unfold stopServer
    cases alookup name c.active <;> rfl
  refine ⟨?_, hstop, ?_⟩
  · intro p _ hp hpe
    have hsrv := startServer_servers c name sp
    generalize (startServer c name sp).2.1 = c1 at *
    simp only [getServerStatus, hsrv, hcfg, hp, hpe]
  · have hsrv := stopServer_servers c name
    have hna := stopServer_not_active c name
    generalize (stopServer c name).2 = c1 at *
    simp only [getServerStatus, hsrv, hcfg, hna]

/-- Witness for claim C6: starting the configured `excel` service on a fresh
connector with a live child yields status `"running"`; stopping yields
`"stopped"`. -/
theorem claim6_witness :
    (getServerStatus (startServer demoConnector "excel" (some quietProc)).2.1 "excel").1
      = "running" ∧
    (stopServer demoConnector "excel").1 = true ∧
    (getServerStatus (stopServer demoConnector "excel").2 "excel").1 = "stopped" := by
  have h := claim6_status_after_start_stop demoConnector "excel" (some quietProc)
    excelServer rfl
  exact ⟨h.1 quietProc rfl rfl rfl, h.2.1, h.2.2⟩

/-- Claim C9 (confirmed): `get_server_status` is not a pure observation.  For a
configured name registered in the active set whose process poll reports a
non-running status, it returns `"stopped"` and removes the handle from the
active set, after which a `start_server` for that name proceeds to spawn afresh
(its trace opens with the `initialize` write, rather than being the empty trace
of the already-registered no-op); for a name whose process is alive it returns
`"running"` and leaves the state entirely unchanged. -/
theorem claim9_status_side_effect (c : Connector) (name : String) (srv : MCPServer)
    (hcfg : alookup name c.servers = some srv) :
    (∀ p code, alookup name c.active = some p → p.exitCode = some code →
        getServerStatus c name
          = ("stopped", { c with active := dictErase name c.active }) ∧
        alookup name (dictErase name c.active) = none ∧
        (∀ q, ∃ tr,
          (startServer { c with active := dictErase name c.active } name (some q)).2.2
            = TraceEvent.writeLine name initRequest :: tr)) ∧
    (∀ p, alookup name c.active = some p → p.exitCode = none →
        getServerStatus c name = ("running", c)) := by
  constructor
  · intro p code hp hdead
    refine ⟨?_, alookup_dictErase_self name c.active, ?_⟩
    · simp only [getServerStatus, hcfg, hp, hdead]
    · intro q
      exact startServer_fresh_trace { c with active := dictErase name c.active } name q srv
        hcfg (alookup_dictErase_self name c.active)
  · intro p hp halive
    simp only [getServerStatus, hcfg, hp, halive]

/-- Witness for claim C9: on a connector whose registered `excel` child has
exited, the status query reports `"stopped"` and purges the handle; on a
connector with a live child it reports `"running"` and changes nothing. -/
theorem claim9_witness :
    getServerStatus deadRegistered "excel" = ("stopped", ⟨[("excel", excelServer)], []⟩) ∧
    getServerStatus ⟨[("excel", excelServer)], [("excel", quietProc)]⟩ "excel"
      = ("running", ⟨[("excel", excelServer)], [("excel", quietProc)]⟩) := by
  have h := claim9_status_side_effect deadRegistered "excel" excelServer rfl
  have h2 := claim9_status_side_effect ⟨[("excel", excelServer)], [("excel", quietProc)]⟩
    "excel" excelServer rfl
  exact ⟨(h.1 deadProc 1 rfl rfl).1, h2.2 quietProc rfl rfl⟩

/-- Claim C3 counterexample: with the `excel` handle registered but its process
already exited (exit code 1), `start_server` does NOT detect or purge the dead
handle and does not respawn: it takes the "already running" no-op path,
returning success with the state unchanged (the stale dead entry still
registered) and an empty I/O trace — contradicting the claim that the dead
handle is purged or the name respawned before a new start is allowed. -/
theorem claim3_counterexample :
    alookup "excel" deadRegistered.active = some deadProc ∧
    deadProc.exitCode = some 1 ∧
    startServer deadRegistered "excel" (some quietProc) = (true, deadRegistered, []) :=
  ⟨rfl, rfl, rfl⟩

/-- Claim C3 as amended: a dead registered handle is never detected by
`start_server` itself — invoked while the stale handle is registered it no-ops
and returns success.  The purge happens only through the status query:
`get_server_status` on such a name returns `"stopped"` and removes the handle,
and only a `start_server` issued after that purge proceeds to spawn afresh
(its trace opens with the handshake's `initialize` write). -/
theorem claim3_amended_purge_only_via_status (c : Connector) (name : String)
    (p : ProcState) (code : Int) (srv : MCPServer) (sp : Option ProcState)
    (hcfg : alookup name c.servers = some srv)
    (hact : alookup name c.active = some p)
    (hdead : p.exitCode = some code) :
    startServer c name sp = (true, c, []) ∧
    (getServerStatus c name).1 = "stopped" ∧
    alookup name ((getServerStatus c name).2).active = none ∧
    (∀ q, ∃ tr, (startServer (getServerStatus c name).2 name (some q)).2.2
        = TraceEvent.writeLine name initRequest :: tr) := by
  have hstatus : getServerStatus c name
      = ("stopped", { c with active := dictErase name c.active }) := by
    simp only [getServerStatus, hcfg, hact, hdead]
  refine ⟨?_, ?_, ?_, ?_⟩
  · simp only [startServer, hcfg, hact]
  · rw [hstatus]
  · rw [hstatus]
    exact alookup_dictErase_self name c.active
  · intro q
    rw [hstatus]
    exact startServer_fresh_trace { c with active := dictErase name c.active } name q srv
      hcfg (alookup_dictErase_self name c.active)

/-- Witness for the amended claim C3: on the connector with a dead registered
`excel` handle, `start_server` no-ops with success, the status query purges the
handle, and a start after the purge opens with the `initialize` write. -/
theorem claim3_amended_witness :
    startServer deadRegistered "excel" (some quietProc) = (true, deadRegistered, []) ∧
    (getServerStatus deadRegistered "excel").1 = "stopped" ∧
    alookup "excel" ((getServerStatus deadRegistered "excel").2).active = none ∧
    (∃ tr, (startServer (getServerStatus deadRegistered "excel").2 "excel"
        (some quietProc)).2.2
      = TraceEvent.writeLine "excel" initRequest :: tr) := by
  have h := claim3_amended_purge_only_via_status deadRegistered "excel" deadProc 1
    excelServer (some quietProc) rfl rfl rfl
  exact ⟨h.1, h.2.1, h.2.2.1, h.2.2.2 quietProc⟩

/-- Claim C8 (confirmed): on a started service whose registered child is alive
but produces no line within the read window, `_send_mcp_request` fails with the
no-response error and leaves the tool state — in particular the connector's
active-process set — completely unchanged (only a write and an empty read
appear on the trace), so the status immediately afterwards is still
`"running"`. -/
theorem claim8_timeout_keeps_running (t : McpTool) (svc : String) (env : SpawnEnv)
    (method : String) (params : Json) (c : Connector) (p : ProcState) (srv : MCPServer)
    (hstart : t.serverStarted = true)
    (hconn : t.connector = some c)
    (hcfg : alookup svc c.servers = some srv)
    (hact : alookup svc c.active = some p)
    (halive : p.exitCode = none)
    (hquiet : p.stdout = []) :
    sendMcpRequest t svc env method params =
      (.noResponse, t,
       [.writeLine svc (rpcRequest method params), .readLine svc none]) ∧
    (getServerStatus c svc).1 = "running" := by
  constructor
  · simp only [sendMcpRequest, ensureServerStarted, hstart, if_true, hconn, hact, halive,
      hquiet, List.nil_append]
  · simp only [getServerStatus, hcfg, hact, halive]

/-- Witness for claim C8: a started tool whose live `excel` child stays silent
gets the no-response error, keeps its state, and still reports `"running"`. -/
theorem claim8_witness :
    sendMcpRequest ⟨some ⟨[("excel", excelServer)], [("excel", quietProc)]⟩, true⟩
        "excel" envNone "tools/call" (.obj []) =
      (.noResponse, ⟨some ⟨[("excel", excelServer)], [("excel", quietProc)]⟩, true⟩,
       [.writeLine "excel" (rpcRequest "tools/call" (.obj [])), .readLine "excel" none]) ∧
    (getServerStatus ⟨[("excel", excelServer)], [("excel", quietProc)]⟩ "excel").1
      = "running" :=
  claim8_timeout_keeps_running
    ⟨some ⟨[("excel", excelServer)], [("excel", quietProc)]⟩, true⟩ "excel" envNone
    "tools/call" (.obj []) ⟨[("excel", excelServer)], [("excel", quietProc)]⟩ quietProc
    excelServer rfl rfl rfl rfl rfl rfl

/-- Claim C2 counterexample: the liveness precondition is never polled.  With
the `excel` handle registered but its child already exited (a poll would report
it dead), `_send_mcp_request` does not fail with the server-not-running error:
it attempts the stdin write (one write event on the pipe trace), the write
raises, and the call fails with a communication error instead. -/
theorem claim2_counterexample :
    (sendMcpRequest ⟨some deadRegistered, true⟩ "excel" envNone "tools/call"
      (.obj [])).1 = .commError ∧
    (sendMcpRequest ⟨some deadRegistered, true⟩ "excel" envNone "tools/call"
      (.obj [])).2.2 =
      [.writeLine "excel" (rpcRequest "tools/call" (.obj []))] :=
  ⟨rfl, rfl⟩

/-- Claim C2 as amended: `_send_mcp_request` fails with the server-not-running
error, performing no I/O, exactly when the service has no handle registered in
`active_processes`; process liveness is never polled, so a call on a registered
but exited child instead attempts the stdin write (which raises) and fails with
a communication error. -/
theorem claim2_amended_no_liveness_poll (t : McpTool) (svc : String) (env : SpawnEnv)
    (method : String) (params : Json) (c : Connector)
    (hstart : t.serverStarted = true)
    (hconn : t.connector = some c) :
    (alookup svc c.active = none →
       sendMcpRequest t svc env method params = (.serverNotRunning, t, [])) ∧
    (∀ p code, alookup svc c.active = some p → p.exitCode = some code →
       sendMcpRequest t svc env method params =
         (.commError, t, [.writeLine svc (rpcRequest method params)])) := by
  constructor
  · intro hact
    simp only [sendMcpRequest, ensureServerStarted, hstart, if_true, hconn, hact]
  · intro p code hact hdead
    simp only [sendMcpRequest, ensureServerStarted, hstart, if_true, hconn, hact, hdead,
      List.nil_append]

/-- Witness for the amended claim C2: an unregistered service name yields the
server-not-running error with an empty trace; the dead-but-registered case is
the counterexample above instantiated through the amended theorem. -/
theorem claim2_amended_witness :
    sendMcpRequest ⟨some demoConnector, true⟩ "excel" envNone "tools/call" (.obj [])
      = (.serverNotRunning, ⟨some demoConnector, true⟩, []) ∧
    sendMcpRequest ⟨some deadRegistered, true⟩ "excel" envNone "tools/call" (.obj [])
      = (.commError, ⟨some deadRegistered, true⟩,
         [.writeLine "excel" (rpcRequest "tools/call" (.obj []))]) := by
  have h1 := claim2_amended_no_liveness_poll ⟨some demoConnector, true⟩ "excel" envNone
    "tools/call" (.obj []) demoConnector rfl rfl
  have h2 := claim2_amended_no_liveness_poll ⟨some deadRegistered, true⟩ "excel" envNone
    "tools/call" (.obj []) deadRegistered rfl rfl
  exact ⟨h1.1 rfl, h2.2 deadProc 1 rfl rfl⟩

/-- Claim C4 (confirmed): for a call on a started service (registered, alive
child), reading the single response line yields exactly one of three outcomes:
no line (or a line that strips to empty) fails with the no-response error; a
non-empty line that does not parse as JSON fails with the invalid-response
error carrying the raw text; a line parsing to `j` makes the call return `j`
verbatim — so under the uniform error convention of `_send_mcp_request` and
its callers (`"error" in response` means failure), a response carrying an
`"error"` field fails with exactly the remote error payload (`j`'s `"error"`
field, untouched), and otherwise the call succeeds carrying the `"result"`
payload (`j`'s `"result"` field, untouched). -/
theorem claim4_read_outcomes (t : McpTool) (svc : String) (env : SpawnEnv)
    (method : String) (params : Json) (c : Connector) (p : ProcState)
    (hstart : t.serverStarted = true)
    (hconn : t.connector = some c)
    (hact : alookup svc c.active = some p)
    (halive : p.exitCode = none) :
    (p.stdout = [] →
       (sendMcpRequest t svc env method params).1 = .noResponse) ∧
    (∀ l rest, p.stdout = l :: rest → l.text = "" →
       (sendMcpRequest t svc env method params).1 = .noResponse) ∧
    (∀ l rest, p.stdout = l :: rest → l.text ≠ "" → l.parsed = none →
       (sendMcpRequest t svc env method params).1 = .invalidResponse l.text) ∧
    (∀ l rest j, p.stdout = l :: rest → l.text ≠ "" → l.parsed = some j →
       (sendMcpRequest t svc env method params).1 = .response j) := by
  refine ⟨?_, ?_, ?_, ?_⟩
  · intro hout
    simp only [sendMcpRequest, ensureServerStarted, hstart, if_true, hconn, hact, halive, hout]
  · intro l rest hout hempty
    simp only [sendMcpRequest, ensureServerStarted, hstart, if_true, hconn, hact, halive,
      hout, hempty, if_true]
  · intro l rest hout hne hparse
    simp only [sendMcpRequest, ensureServerStarted, hstart, if_true, hconn, hact, halive,
      hout, if_neg hne, hparse]
  · intro l rest j hout hne hparse
    simp only [sendMcpRequest, ensureServerStarted, hstart, if_true, hconn, hact, halive,
      hout, if_neg hne, hparse]

/-- A JSON-RPC response line carrying a remote `"error"` payload. -/
def remoteErrorLine : RawLine :=
  ⟨"remote error line",
   some (.obj [("jsonrpc", .str "2.0"), ("id", .num 1),
               ("error", .obj [("code", .num (-32601)), ("message", .str "unknown method")])])⟩

/-- Witness for claim C4: a started service whose child answers with a line
parsing to a JSON-RPC error response makes the call return that object
verbatim; an unparsable line yields the invalid-response error with the raw
text. -/
theorem claim4_witness :
    (sendMcpRequest
        ⟨some ⟨[("excel", excelServer)], [("excel", ⟨none, [remoteErrorLine]⟩)]⟩, true⟩
        "excel" envNone "tools/call" (.obj [])).1
      = .response (.obj [("jsonrpc", .str "2.0"), ("id", .num 1),
          ("error", .obj [("code", .num (-32601)), ("message", .str "unknown method")])]) ∧
    (sendMcpRequest
        ⟨some ⟨[("excel", excelServer)], [("excel", ⟨none, [⟨"not json", none⟩]⟩)]⟩, true⟩
        "excel" envNone "tools/call" (.obj [])).1
      = .invalidResponse "not json" := by
  have h1 := claim4_read_outcomes
    ⟨some ⟨[("excel", excelServer)], [("excel", ⟨none, [remoteErrorLine]⟩)]⟩, true⟩
    "excel" envNone "tools/call" (.obj [])
    ⟨[("excel", excelServer)], [("excel", ⟨none, [remoteErrorLine]⟩)]⟩
    ⟨none, [remoteErrorLine]⟩ rfl rfl rfl rfl
  have h2 := claim4_read_outcomes
    ⟨some ⟨[("excel", excelServer)], [("excel", ⟨none, [⟨"not json", none⟩]⟩)]⟩, true⟩
    "excel" envNone "tools/call" (.obj [])
    ⟨[("excel", excelServer)], [("excel", ⟨none, [⟨"not json", none⟩]⟩)]⟩
    ⟨none, [⟨"not json", none⟩]⟩ rfl rfl rfl rfl
  refine ⟨?_, ?_⟩
  · exact h1.2.2.2 remoteErrorLine []
      (.obj [("jsonrpc", .str "2.0"), ("id", .num 1),
             ("error", .obj [("code", .num (-32601)), ("message", .str "unknown method")])])
      rfl (by decide) rfl
  · exact h2.2.2.1 ⟨"not json", none⟩ [] rfl (by decide) rfl

/-- Claim C1 counterexample: the "no line produced" arm of the claim fails.
Spawning a live child that produces no handshake line at all leaves
`response_line` empty, so `_initialize_mcp_connection` skips its check
(`if response_line:`), treats initialization as successful, and `start_server`
returns success with the handle registered — the status right afterwards is
`"running"`, contradicting the claim that this case fails with handshake
failure and leaves no handle registered as running. -/
theorem claim1_counterexample :
    (startServer demoConnector "excel" (some quietProc)).1 = true ∧
    (getServerStatus (startServer demoConnector "excel" (some quietProc)).2.1 "excel").1
      = "running" :=
  ⟨rfl, rfl⟩

/-- Claim C1 as amended: if the handshake line read is non-empty and either
fails to parse as JSON or parses to an object lacking a `"result"` field, the
handshake fails, `start_server` returns failure, and no handle for the name
remains registered (status is `"stopped"`).  If however no line is produced
within the settle window, the response check is skipped and the handshake is
treated as successful. -/
theorem claim1_amended_bad_line_fails (c : Connector) (name : String) (p : ProcState)
    (l : RawLine) (rest : List RawLine) (srv : MCPServer)
    (hcfg : alookup name c.servers = some srv)
    (hact : alookup name c.active = none)
    (halive : p.exitCode = none)
    (hout : p.stdout = l :: rest)
    (hne : l.text ≠ "")
    (hbad : l.parsed = none ∨ ∃ j, l.parsed = some j ∧ j.getField "result" = none) :
    (startServer c name (some p)).1 = false ∧
    alookup name ((startServer c name (some p)).2.1).active = none ∧
    (getServerStatus (startServer c name (some p)).2.1 name).1 = "stopped" := by
  have hini : initializeMcpConnection { c with active := c.active ++ [(name, p)] } name
      = (false, { c with active := c.active ++ [(name, { p with stdout := rest })] },
         [.writeLine name initRequest, .readLine name (some l.text)]) := by
    rcases hbad with hparse | ⟨j, hparse, hnores⟩
    · simp only [initializeMcpConnection, alookup_append_self name p c.active hact, halive,
        hout, if_neg hne, hparse, updFirst_append_self name _ p c.active hact]
    · simp only [initializeMcpConnection, alookup_append_self name p c.active hact, halive,
        hout, if_neg hne, hparse, hnores, updFirst_append_self name _ p c.active hact]
  have hlast : startServer c name (some p)
      = (false,
         (stopServer { c with active := c.active ++ [(name, { p with stdout := rest })] }
           name).2,
         [.writeLine name initRequest, .readLine name (some l.text)]) := by
    simp only [startServer, hcfg, hact, hini]
  have hstop : (stopServer { c with active := c.active ++ [(name, { p with stdout := rest })] }
      name).2.active = c.active := by
    simp only [stopServer, alookup_append_self name _ c.active hact,
      dictErase_append_self name _ c.active hact]
  have hsrv := stopServer_servers
    { c with active := c.active ++ [(name, { p with stdout := rest })] } name
  rw [hlast]
  refine ⟨rfl, ?_, ?_⟩
  · simpa [hstop] using hact
  · simp only [getServerStatus, hsrv, hcfg, hstop, hact]

/-- Witness for the amended claim C1: a child answering the handshake with an
unparsable line makes `start_server` fail, with no handle left registered and
status `"stopped"`. -/
theorem claim1_amended_witness :
    (startServer demoConnector "excel" (some ⟨none, [⟨"not json", none⟩]⟩)).1 = false ∧
    alookup "excel"
      ((startServer demoConnector "excel" (some ⟨none, [⟨"not json", none⟩]⟩)).2.1).active
      = none ∧
    (getServerStatus
      (startServer demoConnector "excel" (some ⟨none, [⟨"not json", none⟩]⟩)).2.1
      "excel").1 = "stopped" :=
  claim1_amended_bad_line_fails demoConnector "excel" ⟨none, [⟨"not json", none⟩]⟩
    ⟨"not json", none⟩ [] excelServer rfl rfl rfl rfl (by decide) (Or.inl rfl)

/-- A successful fresh `start_server` (configured name, nothing registered,
live spawn) runs the complete two-step handshake — its trace is exactly the
`initialize` write, one read, and the `initialized` notification write — and
leaves a live handle registered for the name. -/
theorem startServer_success_fresh (c : Connector) (name : String) (p : ProcState)
    (srv : MCPServer)
    (hcfg : alookup name c.servers = some srv)
    (hact : alookup name c.active = none)
    (halive : p.exitCode = none)
    (hok : (startServer c name (some p)).1 = true) :
    ∃ x p', (startServer c name (some p)).2.2 =
        [TraceEvent.writeLine name initRequest, TraceEvent.readLine name x,
         TraceEvent.writeLine name initializedNotification] ∧
      alookup name (startServer c name (some p)).2.1.active = some p' ∧
      p'.exitCode = none := by
  cases hout : p.stdout with
  | nil =>
    have hini : initializeMcpConnection { c with active := c.active ++ [(name, p)] } name
        = (true, { c with active := c.active ++ [(name, p)] },
           [.writeLine name initRequest, .readLine name none,
            .writeLine name initializedNotification]) := by
      simp only [initializeMcpConnection, alookup_append_self name p c.active hact, halive,
        hout]
    refine ⟨none, p, ?_, ?_, halive⟩
    · simp only [startServer, hcfg, hact, hini]
    · simp only [startServer, hcfg, hact, hini]
      exact alookup_append_self name p c.active hact
  | cons l rest =>
    have hupd : updFirst name (⟨none, rest⟩ : ProcState) (c.active ++ [(name, p)])
        = c.active ++ [(name, (⟨none, rest⟩ : ProcState))] :=
      updFirst_append_self name ⟨none, rest⟩ p c.active hact
    by_cases hne : l.text = ""
    · have hini : initializeMcpConnection { c with active := c.active ++ [(name, p)] } name
          = (true, { c with active := c.active ++ [(name, (⟨none, rest⟩ : ProcState))] },
             [.writeLine name initRequest, .readLine name (some l.text),
              .writeLine name initializedNotification]) := by
        simp [initializeMcpConnection, alookup_append_self name p c.active hact, halive,
          hout, hne, hupd]
      refine ⟨some l.text, ⟨none, rest⟩, ?_, ?_, rfl⟩
      · simp only [startServer, hcfg, hact, hini]
      · simp only [startServer, hcfg, hact, hini]
        exact alookup_append_self name _ c.active hact
    · cases hparse : l.parsed with
      | none =>
        have hini : initializeMcpConnection { c with active := c.active ++ [(name, p)] } name
            = (false, { c with active := c.active ++ [(name, (⟨none, rest⟩ : ProcState))] },
               [.writeLine name initRequest, .readLine name (some l.text)]) := by
          simp only [initializeMcpConnection, alookup_append_self name p c.active hact,
            halive, hout, if_neg hne, hparse, hupd]
        rw [startServer] at hok
        simp only [hcfg, hact, hini] at hok
        simp at hok
      | some j =>
        cases hres : j.getField "result" with
        | none =>
          have hini : initializeMcpConnection { c with active := c.active ++ [(name, p)] }
              name
              = (false, { c with active := c.active ++ [(name, (⟨none, rest⟩ : ProcState))] },
                 [.writeLine name initRequest, .readLine name (some l.text)]) := by
            simp only [initializeMcpConnection, alookup_append_self name p c.active hact,
              halive, hout, if_neg hne, hparse, hres, hupd]
          rw [startServer] at hok
          simp only [hcfg, hact, hini] at hok
          simp at hok
        | some r =>
          have hini : initializeMcpConnection { c with active := c.active ++ [(name, p)] }
              name
              = (true, { c with active := c.active ++ [(name, (⟨none, rest⟩ : ProcState))] },
                 [.writeLine name initRequest, .readLine name (some l.text),
                  .writeLine name initializedNotification]) := by
            simp only [initializeMcpConnection, alookup_append_self name p c.active hact,
              halive, hout, if_neg hne, hparse, hres, hupd]
          refine ⟨some l.text, ⟨none, rest⟩, ?_, ?_, rfl⟩
          · simp only [startServer, hcfg, hact, hini]
          · simp only [startServer, hcfg, hact, hini]
            exact alookup_append_self name _ c.active hact

/-- Claim C7 (confirmed): a `_send_mcp_request` issued before the server was
ever started first starts the child and completes the full two-step handshake
(`initialize` write, response read, `initialized` notification write) before
writing the tool-call JSON-RPC request; and if that implicit start fails, the
call returns the start-failure error without attempting the JSON-RPC exchange
(its trace is exactly the failed start's trace, with no further I/O). -/
theorem claim7_autostart_handshake_first (t : McpTool) (svc : String) (env : SpawnEnv)
    (method : String) (params : Json) (c : Connector) (p : ProcState) (srv : MCPServer)
    (hns : t.serverStarted = false)
    (hnew : env.newConnector = some c)
    (hsp : env.spawn = some p)
    (hcfg : alookup svc c.servers = some srv)
    (hact : alookup svc c.active = none)
    (halive : p.exitCode = none) :
    ((startServer c svc (some p)).1 = true →
       ∃ x r, (sendMcpRequest t svc env method params).2.2 =
         [TraceEvent.writeLine svc initRequest, TraceEvent.readLine svc x,
          TraceEvent.writeLine svc initializedNotification,
          TraceEvent.writeLine svc (rpcRequest method params),
          TraceEvent.readLine svc r]) ∧
    ((startServer c svc (some p)).1 = false →
       (sendMcpRequest t svc env method params).1 = .startFailed ∧
       (sendMcpRequest t svc env method params).2.2 = (startServer c svc (some p)).2.2) := by
  constructor
  · intro hok
    obtain ⟨x, p', htr, hlook, hpe⟩ :=
      startServer_success_fresh c svc p srv hcfg hact halive hok
    rcases hst : startServer c svc (some p) with ⟨b, c', tr⟩
    rw [hst] at hok htr hlook
    simp only at hok htr hlook
    subst hok
    have hens : ensureServerStarted t svc env = (true, ⟨some c', true⟩, tr) := by
      simp [ensureServerStarted, hns, hnew, hsp, hst]
    cases hpout : p'.stdout with
    | nil =>
      refine ⟨x, none, ?_⟩
      simp [sendMcpRequest, hens, hlook, hpe, hpout, htr]
    | cons l2 rest2 =>
      by_cases hne2 : l2.text = ""
      · refine ⟨x, some l2.text, ?_⟩
        simp [sendMcpRequest, hens, hlook, hpe, hpout, hne2, htr]
      · cases hparse2 : l2.parsed with
        | none =>
          refine ⟨x, some l2.text, ?_⟩
          simp [sendMcpRequest, hens, hlook, hpe, hpout, hne2, hparse2, htr]
        | some j =>
          refine ⟨x, some l2.text, ?_⟩
          simp [sendMcpRequest, hens, hlook, hpe, hpout, hne2, hparse2, htr]
  · intro hfail
    rcases hst : startServer c svc (some p) with ⟨b, c', tr⟩
    rw [hst] at hfail
    simp only at hfail
    subst hfail
    have hens : ensureServerStarted t svc env = (false, ⟨some c', false⟩, tr) := by
      simp [ensureServerStarted, hns, hnew, hsp, hst]
    constructor
    · simp [sendMcpRequest, hens]
    · simp [sendMcpRequest, hens, hst]

/-- Handshake response line carrying a `"result"` field. -/
def okInitLine : RawLine :=
  ⟨"init ok", some (.obj [("jsonrpc", .str "2.0"), ("id", .num 1), ("result", .obj [])])⟩

/-- Tool-call response line carrying a `"result"` field. -/
def okReplyLine : RawLine :=
  ⟨"call ok", some (.obj [("jsonrpc", .str "2.0"), ("id", .num 1),
    ("result", .obj [("ok", .bool true)])])⟩

/-- A live child that answers the handshake and then one tool call. -/
def friendlyProc : ProcState := ⟨none, [okInitLine, okReplyLine]⟩

/-- An environment whose connector construction and spawn both succeed. -/
def envGood : SpawnEnv := ⟨some demoConnector, some friendlyProc⟩

/-- Witness for claim C7: a never-started tool calling into a well-behaved
child produces exactly the handshake trace followed by the tool-call write and
its read. -/
theorem claim7_witness :
    ∃ x r, (sendMcpRequest ⟨none, false⟩ "excel" envGood "tools/call" (.obj [])).2.2 =
      [TraceEvent.writeLine "excel" initRequest, TraceEvent.readLine "excel" x,
       TraceEvent.writeLine "excel" initializedNotification,
       TraceEvent.writeLine "excel" (rpcRequest "tools/call" (.obj [])),
       TraceEvent.readLine "excel" r] :=
  (claim7_autostart_handshake_first ⟨none, false⟩ "excel" envGood "tools/call" (.obj [])
    demoConnector friendlyProc excelServer rfl rfl rfl rfl rfl rfl).1 rfl

/-- A config file JSON of the shape `load_config` expects: a top-level object
whose `mcpServers` key maps service names to entry objects. -/
def mcpConfig (entries : List (String × Json)) : Json :=
  .obj [("mcpServers", .obj entries)]

theorem serversEntries_mcpConfig (entries : List (String × Json)) :
    serversEntries (mcpConfig entries) = some entries := by
  simp [serversEntries, mcpConfig, alookup]

/-- Processing a prefix of well-formed entries (each an object carrying a
`command` key) succeeds entry by entry: it reduces to processing the remaining
entries from an accumulator in which every prefix entry's name is registered
and all previously registered names remain registered. -/
theorem loadEntries_good_prefix (l2 : List (String × Json)) :
    ∀ (pre : List (String × Json)) (acc : List (String × MCPServer)),
    (∀ e ∈ pre, ∃ fs, e.2 = Json.obj fs ∧ (alookup "command" fs).isSome) →
    ∃ acc', loadEntries (pre ++ l2) acc = loadEntries l2 acc' ∧
      (∀ e ∈ pre, (alookup e.1 acc').isSome) ∧
      (∀ k, (alookup k acc).isSome → (alookup k acc').isSome)
  | [], acc, _ => ⟨acc, rfl, by simp, fun _ h => h⟩
  | (n, sc) :: rest, acc, hpre => by
    obtain ⟨fs, hobj, hcmd⟩ := hpre (n, sc) (by simp)
    simp only at hobj
    subst hobj
    obtain ⟨cmd, hcmd2⟩ := Option.isSome_iff_exists.mp hcmd
    obtain ⟨acc', heq, hmem, hmono⟩ := loadEntries_good_prefix l2 rest
      (dictInsert n
        ⟨n, cmd, (Json.obj fs).getD "args" (.arr []), (Json.obj fs).getD "env" (.obj [])⟩
        acc)
      (fun e he => hpre e (by simp [he]))
    refine ⟨acc', ?_, ?_, ?_⟩
    · simp only [List.cons_append, loadEntries, hcmd2]
      exact heq
    · intro e he
      rcases List.mem_cons.mp he with rfl | he2
      · exact hmono n (by simp [alookup_dictInsert_self])
      · exact hmem e he2
    · intro k hk
      exact hmono k (alookup_dictInsert_isSome k n _ acc hk)

/-- Claim C10 (confirmed): loading a config file that exists and parses as
valid JSON but contains a service entry lacking the required `command` key
fails with a key-lookup error (`KeyError('command')`) that is neither the
missing-file nor the malformed-JSON error — it escapes the two declared
handlers — and every entry processed before the faulty one remains registered
in the in-memory server mapping (the load is not atomic on this failure). -/
theorem claim10_missing_command_key (pre rest : List (String × Json)) (badName : String)
    (badFields : List (String × Json)) (c : Connector)
    (hpre : ∀ e ∈ pre, ∃ fs, e.2 = Json.obj fs ∧ (alookup "command" fs).isSome)
    (hbad : alookup "command" badFields = none) :
    (loadConfig (.parsed (mcpConfig (pre ++ (badName, Json.obj badFields) :: rest))) c).1
      = some (.keyError "command") ∧
    some (LoadError.keyError "command") ≠ some LoadError.configNotFound ∧
    some (LoadError.keyError "command") ≠ some LoadError.configMalformed ∧
    (∀ e ∈ pre, (alookup e.1
        (loadConfig (.parsed (mcpConfig (pre ++ (badName, Json.obj badFields) :: rest)))
          c).2.servers).isSome) := by
  obtain ⟨acc', heq, hmem, hmono⟩ := loadEntries_good_prefix
    ((badName, Json.obj badFields) :: rest) pre c.servers hpre
  have hstep : loadEntries ((badName, Json.obj badFields) :: rest) acc'
      = (some (.keyError "command"), acc') := by
    simp only [loadEntries, hbad]
  have hload :
      loadConfig (.parsed (mcpConfig (pre ++ (badName, Json.obj badFields) :: rest))) c
      = (some (.keyError "command"), { c with servers := acc' }) := by
    simp only [loadConfig, serversEntries_mcpConfig, heq, hstep]
  rw [hload]
  refine ⟨rfl, by simp, by simp, ?_⟩
  intro e he
  exact hmem e he

/-- A well-formed config entry carrying a `command` key. -/
def goodEntry : String × Json := ("good", .obj [("command", .str "uvx")])

/-- Witness for claim C10: a two-entry config whose second entry lacks
`command` fails with the key error while the first entry stays registered. -/
theorem claim10_witness :
    (loadConfig (.parsed (mcpConfig ([goodEntry] ++ ("bad", Json.obj []) :: [])))
      ⟨[], []⟩).1 = some (.keyError "command") ∧
    (alookup "good"
      (loadConfig (.parsed (mcpConfig ([goodEntry] ++ ("bad", Json.obj []) :: [])))
        ⟨[], []⟩).2.servers).isSome := by
  have h := claim10_missing_command_key [goodEntry] [] "bad" [] ⟨[], []⟩
    (fun e he => by
      rcases List.mem_singleton.mp he with rfl
      exact ⟨[("command", Json.str "uvx")], rfl, rfl⟩)
    rfl
  exact ⟨h.1, h.2.2.2 goodEntry (by simp)⟩

end MCPModel
